import Mathlib

/-!
Verification of the interaction-triggered screen-capture observer
(`record/gum/observers/screen.py`, class `Screen`).

The Python code is shallowly embedded: times, coordinates and scroll deltas are
modelled as rationals (`ℚ`), the mutable instance attributes become explicit
state records, and each event handler becomes a pure state-transition function.
Fallible collaborators (screen grabs, window lookups) are modelled as
`Option`/`Except` inputs.  Comparisons that Python performs on a square root,
`sqrt(dx**2 + dy**2) < c`, are embedded as the equivalent square comparison
`dx*dx + dy*dy < c*c` (the configured thresholds are nonnegative, so the two
are equivalent).
-/

namespace Screen

/-- A capture rectangle, Python dict `{"left", "top", "width", "height"}`. -/
structure Region where
  left : ℚ
  top : ℚ
  width : ℚ
  height : ℚ
deriving DecidableEq

/-- One entry of `self._tracked_windows`: `{"id": window_id, "region": {...}}`.
`id = none` models a fixed coordinate rectangle without a window handle. -/
structure Tracked where
  id : Option Nat
  region : Region
deriving DecidableEq

/-- Python `Screen._is_point_in_region`: half-open containment test
`left <= x < left + width and top <= y < top + height`. -/
def is_point_in_region (x y : ℚ) (region : Region) : Bool :=
  decide (region.left ≤ x) && decide (x < region.left + region.width) &&
  decide (region.top ≤ y) && decide (y < region.top + region.height)

/-- Python `Screen._find_region_for_point`.  `wap` is the result of the single
window-manager query `get_window_at_point(x, y)` (`none` when the topmost
window cannot be determined).  A containing region whose verification fails is
skipped with `continue`; the loop then tries the remaining tracked regions. -/
def find_region_for_point (wap : Option Nat) (verify_window : Bool) (x y : ℚ) :
    List Tracked → Option Tracked
  | [] => none
  | t :: rest =>
    if is_point_in_region x y t.region then
      if verify_window && t.id.isSome then
        match wap, t.id with
        | some w, some i =>
          if w ≠ i then find_region_for_point wap verify_window x y rest
          else some t
        | _, _ => some t
      else some t
    else find_region_for_point wap verify_window x y rest

/-- The scroll-filter configuration attributes set in `Screen.__init__`. -/
structure ScrollConfig where
  scroll_debounce_sec : ℚ
  scroll_min_distance : ℚ
  scroll_max_frequency : ℚ
  scroll_session_timeout : ℚ
deriving DecidableEq

/-- The mutable scroll-filter attributes of `Screen`:
`_scroll_session_start`, `_scroll_event_count`, `_scroll_last_position`,
`_scroll_last_time`. -/
structure ScrollState where
  session_start : Option ℚ
  event_count : Nat
  last_position : Option (ℚ × ℚ)
  last_time : Option ℚ
deriving DecidableEq

/-- The debounce test of `_should_log_scroll`:
`self._scroll_last_time is not None and current_time - self._scroll_last_time <
self._scroll_debounce_sec`. -/
def debounce_reject (cfg : ScrollConfig) (st : ScrollState) (now : ℚ) : Bool :=
  match st.last_time with
  | some lt => decide (now - lt < cfg.scroll_debounce_sec)
  | none => false

/-- The minimum-distance test of `_should_log_scroll`: reject when both the
pointer travel since the last accepted event and the scroll magnitude are
below `_scroll_min_distance` (square comparison replaces `** 0.5`). -/
def distance_reject (cfg : ScrollConfig) (st : ScrollState) (x y dx dy : ℚ) : Bool :=
  match st.last_position with
  | some lp =>
    decide ((x - lp.1) * (x - lp.1) + (y - lp.2) * (y - lp.2) <
            cfg.scroll_min_distance * cfg.scroll_min_distance) &&
    decide (dx * dx + dy * dy < cfg.scroll_min_distance * cfg.scroll_min_distance)
  | none => false

/-- The frequency test of `_should_log_scroll`: with the already incremented
event count, reject when `session_duration > 0` and
`event_count / session_duration > _scroll_max_frequency`. -/
def frequency_reject (cfg : ScrollConfig) (count : Nat) (dur : ℚ) : Bool :=
  decide (dur > 0) && decide ((count : ℚ) / dur > cfg.scroll_max_frequency)

/-- Python `Screen._should_log_scroll(x, y, dx, dy)` with `current_time` made an
explicit argument `now`.  Returns the decision together with the updated
scroll-filter state. -/
def should_log_scroll (cfg : ScrollConfig) (st : ScrollState) (x y dx dy now : ℚ) :
    Bool × ScrollState :=
  match st.session_start with
  | none =>
    (true, ⟨some now, 0, some (x, y), some now⟩)
  | some s0 =>
    if now - s0 > cfg.scroll_session_timeout then
      -- start new session
      (true, ⟨some now, 0, some (x, y), some now⟩)
    else if debounce_reject cfg st now then (false, st)
    else if distance_reject cfg st x y dx dy then (false, st)
    else
      let count := st.event_count + 1
      if frequency_reject cfg count (now - s0) then
        (false, { st with event_count := count })
      else
        (true, { st with event_count := count,
                         last_position := some (x, y),
                         last_time := some now })

/-- Feed a list of scroll events `(x, y, dx, dy, time)` through the filter,
returning the final state and the times of the accepted events. -/
def scroll_run (cfg : ScrollConfig) : ScrollState → List (ℚ × ℚ × ℚ × ℚ × ℚ) →
    ScrollState × List ℚ
  | st, [] => (st, [])
  | st, e :: rest =>
    let r := should_log_scroll cfg st e.1 e.2.1 e.2.2.1 e.2.2.2.1 e.2.2.2.2
    let s := scroll_run cfg r.2 rest
    (s.1, (if r.1 then [e.2.2.2.2] else []) ++ s.2)

/-- The scroll-filter state at start-up: all four attributes `None`/zero. -/
def initScroll : ScrollState := ⟨none, 0, none, none⟩

/-! ## Keyboard sessions

The keyboard-session attributes `_key_activity_start` and `_key_screenshots`,
together with a model-level view of the screenshot files currently on disk
(`disk` holds the saved paths minus the ones `os.remove` deleted).  Screenshot
paths are abstracted to naturals; the handlers below thread a counter so each
saved screenshot gets a fresh path, matching the timestamped filenames. -/
structure KeySess where
  key_activity_start : Option ℚ
  key_screenshots : List Nat
  disk : List Nat
deriving DecidableEq

/-- Python `Screen._cleanup_key_screenshots`: when more than two screenshots are
tracked, keep only the first and the last (`[1:-1]` is deleted from disk and
the list is trimmed to `[first, last]`).  Returns the trimmed list and the
remaining on-disk paths. -/
def cleanup_key_screenshots (shots disk : List Nat) : List Nat × List Nat :=
  if shots.length ≤ 2 then (shots, disk)
  else
    let to_delete := (shots.drop 1).take (shots.length - 2)
    (shots.take 1 ++ shots.drop (shots.length - 1),
     disk.filter (fun p => !(decide (p ∈ to_delete))))

/-- The keyboard-session bookkeeping of the `key_event` handler: start a new
session (saving a `first` screenshot) when there is no session or
`current_time - _key_activity_start > _key_activity_timeout`; otherwise append
an `intermediate` screenshot and run the cleanup when more than two are
tracked.  Returns the new state and whether a new session was started. -/
def key_event_session (timeout : ℚ) (st : KeySess) (now : ℚ) (path : Nat) :
    KeySess × Bool :=
  match st.key_activity_start with
  | none => (⟨some now, [path], st.disk ++ [path]⟩, true)
  | some s0 =>
    if now - s0 > timeout then (⟨some now, [path], st.disk ++ [path]⟩, true)
    else
      let shots := st.key_screenshots ++ [path]
      let disk := st.disk ++ [path]
      if shots.length > 2 then
        let c := cleanup_key_screenshots shots disk
        (⟨some s0, c.1, c.2⟩, false)
      else (⟨some s0, shots, disk⟩, false)

/-- The periodic keyboard-session check in `Screen._worker`: the session is
closed (final screenshot renamed, state reset) exactly when
`_key_activity_start` is set, `current_time - _key_activity_start >
_key_activity_timeout`, and more than one screenshot exists. -/
def key_periodic_closes (timeout : ℚ) (st : KeySess) (now : ℚ) : Bool :=
  match st.key_activity_start with
  | some s0 => decide (now - s0 > timeout) && decide (st.key_screenshots.length > 1)
  | none => false

/-- Run a list of key events (times) through the session bookkeeping, handing
out fresh screenshot paths `i, i+1, ...`.  Returns the final state and the
number of sessions started. -/
def key_sim (timeout : ℚ) : KeySess → Nat → List ℚ → KeySess × Nat
  | st, _, [] => (st, 0)
  | st, i, t :: rest =>
    let r := key_event_session timeout st t i
    let s := key_sim timeout r.1 (i + 1) rest
    (s.1, (if r.2 then 1 else 0) + s.2)

/-! ## Window tracker: title changes -/

/-- The title-change detection of `Screen._update_tracked_regions` for one
tracked window on one refresh.  `bounds` is the result of
`get_window_bounds_by_id` (`none`: window not found, title never checked) and
`title` the result of `get_window_title_by_id` (`none` models both an empty
title and a raised exception; Python guards with `if current_title:`, so `""`
is treated like `none`).  The stored `last_title` starts as `""` (the
`tracked.get("last_title", "")` default).  Returns whether a tab switch was
detected and the updated baseline title. -/
def title_refresh_step (bounds : Option Region) (title : Option String)
    (last_title : String) : Bool × String :=
  match bounds with
  | none => (false, last_title)
  | some _ =>
    match title with
    | none => (false, last_title)
    | some t =>
      if t = "" then (false, last_title)
      else if last_title ≠ "" && t ≠ last_title then (true, t)
      else if last_title = "" then (false, t)
      else (false, last_title)

/-- Iterate `title_refresh_step` over successive refresh results, counting the
detected tab switches (each of which triggers one capture and one
ActivityRecord in `Screen._worker`). -/
def title_refresh_run (last_title : String) :
    List (Option Region × Option String) → Nat × String
  | [] => (0, last_title)
  | r :: rest =>
    let s := title_refresh_step r.1 r.2 last_title
    let k := title_refresh_run s.2 rest
    ((if s.1 then 1 else 0) + k.1, k.2)

/-! ## Inactivity monitor -/

/-- The default of the `inactivity_timeout` constructor argument:
`45 * 60` seconds. -/
def inactivity_timeout_default : ℚ := 45 * 60

/-- The inactivity check at the top of each `Screen._worker` loop tick: when a
last-activity timestamp exists and `t0 - _last_activity_time >=
_inactivity_timeout`, the engine reports idle and sets `_running = False`
(terminal stop; the loop breaks and no further events are processed).
Returns the new value of the `_running` flag. -/
def inactivity_check (timeout : ℚ) (last_activity : Option ℚ) (running : Bool)
    (now : ℚ) : Bool :=
  match last_activity with
  | some la => if now - la ≥ timeout then false else running
  | none => running

/-! ## Frames, pending events, and the flush pipeline -/

/-- An opaque captured frame (`mss`/backend bitmap).  Its pixel contents play
no role in the verified properties. -/
structure Frame where
  unit : Unit := ()
deriving DecidableEq, Inhabited

/-- The `self._pending_event` dict: `type`, `position` (region-relative),
optional `scroll` delta, optional `text`, `monitor_rect`, `window_id`.
Pointer and scroll handlers never set `text`; it exists only for the dead
key-event branch of `_process_and_emit` (which would raise `KeyError` in
Python — it is unreachable from `flush`, whose events are always
click/scroll). -/
structure PendingEvent where
  typ : String
  position : ℚ × ℚ
  scroll : Option (ℚ × ℚ)
  text : Option String
  monitor_rect : Option Region
  window_id : Option Nat
deriving DecidableEq

/-- Does the character list `s` start with `pat`? -/
def str_starts : List Char → List Char → Bool
  | _, [] => true
  | [], _ :: _ => false
  | c :: cs, d :: ds => c == d && str_starts cs ds

/-- Does the character list `s` contain `pat` as a contiguous sublist? -/
def str_find : List Char → List Char → Bool
  | [], pat => str_starts [] pat
  | c :: cs, pat => str_starts (c :: cs) pat || str_find cs pat

/-- Python substring test `sub in s`. -/
def str_contains (s sub : String) : Bool := str_find s.toList sub.toList

/-- Python `f"{q:.1f}"` for the nonnegative exact-tenth rationals produced in
this model (event coordinates relative to integer region bounds). -/
def format_1f (q : ℚ) : String :=
  let n : Int := ⌊q * 10⌋
  toString (n / 10) ++ "." ++ toString (n % 10)

/-- Python `f"{q:.2f}"` for the nonnegative exact-hundredth rationals produced
in this model (scroll deltas). -/
def format_2f (q : ℚ) : String :=
  let n : Int := ⌊q * 100⌋
  toString (n / 100) ++ "." ++ toString (n % 100 / 10) ++ toString (n % 10)

/-- The `step` string built in `flush` (also used to tag the saved frames):
`scroll(x, y, dx=…, dy=…)` when the event type contains `"scroll"`, otherwise
`type(x, y)`. -/
def event_step_string (ev : PendingEvent) : String :=
  if str_contains ev.typ "scroll" then
    let sc := ev.scroll.getD (0, 0)
    "scroll(" ++ format_1f ev.position.1 ++ ", " ++ format_1f ev.position.2 ++
      ", dx=" ++ format_2f sc.1 ++ ", dy=" ++ format_2f sc.2 ++ ")"
  else
    ev.typ ++ "(" ++ format_1f ev.position.1 ++ ", " ++ format_1f ev.position.2 ++ ")"

/-- The content string of the single `Update` that `Screen._process_and_emit`
puts on the output queue. -/
def process_and_emit_content (ev : PendingEvent) : String :=
  if str_contains ev.typ "scroll" then
    let sc := ev.scroll.getD (0, 0)
    "scroll(" ++ format_1f ev.position.1 ++ ", " ++ format_1f ev.position.2 ++
      ", dx=" ++ format_2f sc.1 ++ ", dy=" ++ format_2f sc.2 ++ ")"
  else if str_contains ev.typ "click" then
    ev.typ ++ "(" ++ format_1f ev.position.1 ++ ", " ++ format_1f ev.position.2 ++ ")"
  else
    ev.typ ++ "(" ++ (ev.text.getD "") ++ ")"

/-- The nested `flush` coroutine of `Screen._worker`, which processes the
pending pointer/scroll action.  `aft` is the "after" grab:
`Except.error ()` models a raised exception, `Except.ok none` a backend that
returned no frame.  Returns the tags of the frames saved by `_save_frame`
(before/after, in order) and the contents of the emitted ActivityRecords. -/
def flush (pending : Option PendingEvent) (skip : Bool)
    (aft : Except Unit (Option Frame)) : List String × List String :=
  match pending with
  | none => ([], [])
  | some ev =>
    if skip then ([], [])
    else
      match ev.monitor_rect with
      | none => ([], [])
      | some _ =>
        match aft with
        | Except.error _ => ([], [])
        | Except.ok none => ([], [])
        | Except.ok (some _) =>
          let step := event_step_string ev
          ([step ++ "_before", step ++ "_after"],
           [process_and_emit_content ev])

/-- The possible outcomes of the `mouse_event` handler. -/
inductive MouseRes where
  /-- Point outside every tracked window/region: event silently skipped
  before any capture is requested. -/
  | skippedOutside
  /-- The "before" grab raised or returned `None`: handler returns. -/
  | grabFailed
  /-- A guard window is visible (`_skip()`): handler returns. -/
  | guarded
  /-- A pending event was stored and `flush` was scheduled. -/
  | pending (ev : PendingEvent)
deriving DecidableEq

/-- The nested `mouse_event` coroutine of `Screen._worker`.  `wap` is the
window-manager answer to `get_window_at_point`, `grab` the "before" capture
result, `skip` the `_skip()` guard. -/
def mouse_event (wap : Option Nat) (tracked_windows : List Tracked)
    (grab : Except Unit (Option Frame)) (skip : Bool) (x y : ℚ) (typ : String) :
    MouseRes :=
  match find_region_for_point wap true x y tracked_windows with
  | none => MouseRes.skippedOutside
  | some tracked =>
    match grab with
    | Except.error _ => MouseRes.grabFailed
    | Except.ok none => MouseRes.grabFailed
    | Except.ok (some _) =>
      if skip then MouseRes.guarded
      else
        MouseRes.pending
          ⟨typ, (x - tracked.region.left, y - tracked.region.top), none, none,
           some tracked.region, tracked.id⟩

/-- The possible outcomes of the `scroll_event` handler. -/
inductive ScrollRes where
  /-- Rejected by `_should_log_scroll`. -/
  | filtered
  /-- Point outside every tracked window/region. -/
  | skippedOutside
  /-- The "before" grab raised an exception. -/
  | grabError
  /-- Scroll magnitude below `1.0`: dropped after the "before" grab, no
  pending action, no save, no record. -/
  | tooSmall
  /-- A guard window is visible. -/
  | guarded
  /-- A pending event was stored and `flush` was awaited. -/
  | pending (ev : PendingEvent)
deriving DecidableEq

/-- The nested `scroll_event` coroutine of `Screen._worker`.  Unlike
`mouse_event` it does not check the grabbed frame for `None` (only a raised
exception aborts), and the `magnitude < 1.0` test
(`(dx**2 + dy**2)**0.5 < 1.0`, embedded as its square comparison) runs after
the grab and before the guard check. -/
def scroll_event_handler (cfg : ScrollConfig) (st : ScrollState)
    (wap : Option Nat) (tracked_windows : List Tracked)
    (grab : Except Unit (Option Frame)) (skip : Bool) (x y dx dy now : ℚ) :
    ScrollState × ScrollRes :=
  let r := should_log_scroll cfg st x y dx dy now
  if r.1 then
    match find_region_for_point wap true x y tracked_windows with
    | none => (r.2, ScrollRes.skippedOutside)
    | some tracked =>
      match grab with
      | Except.error _ => (r.2, ScrollRes.grabError)
      | Except.ok _ =>
        if dx * dx + dy * dy < 1 then (r.2, ScrollRes.tooSmall)
        else if skip then (r.2, ScrollRes.guarded)
        else
          (r.2, ScrollRes.pending
            ⟨"scroll", (x - tracked.region.left, y - tracked.region.top),
             some (dx, dy), none, some tracked.region, tracked.id⟩)
  else (r.2, ScrollRes.filtered)

/-- The verification predicate implicit in `_find_region_for_point`: a tracked
entry matches the point when its region contains it and, when verification
applies and the topmost window is known, that window is the tracked one. -/
def region_passes (wap : Option Nat) (verify_window : Bool) (x y : ℚ)
    (t : Tracked) : Bool :=
  is_point_in_region x y t.region &&
    (!(verify_window && t.id.isSome) ||
      match wap, t.id with
      | some w, some i => w == i
      | _, _ => true)

/-! ## Theorems -/

/-- C2, counterexample: `_should_log_scroll` keys new sessions on the gap
since the *session start*, not the gap since the previous scroll event.  With
the constructor defaults (debounce 0.5 s, min distance 5, max frequency 10,
session timeout 2 s), after events at times 0 and 1 the previous event is at
time 1, so an event at time 5/2 has a gap of 3/2 ≤ 2 since the previous event
— yet a new session is started (event accepted, count reset to 0, session
start and last time reset to 5/2). -/
theorem scroll_new_session_prev_gap_cex :
    let cfg : ScrollConfig := ⟨1/2, 5, 10, 2⟩
    let st2 := (scroll_run cfg initScroll
      [(50, 50, 0, 10, 0), (50, 50, 0, 10, 1)]).1
    let r := should_log_scroll cfg st2 50 50 0 10 (5/2)
    st2.last_time = some 1 ∧ ¬((5/2 : ℚ) - 1 > cfg.scroll_session_timeout) ∧
    r.1 = true ∧ r.2.session_start = some (5/2) ∧ r.2.event_count = 0 ∧
    r.2.last_time = some (5/2) := by
  norm_num [scroll_run, should_log_scroll, debounce_reject, distance_reject,
    frequency_reject, initScroll]

/-- C2 (amended: "exactly when the gap since the start of the *current session*
exceeds the scroll session timeout"): for every scroll event passed to the
filter, a new scroll session is started — the event is accepted with the
session start and last time reset to `now`, the event count reset to 0 and the
last position reset to `(x, y)` — exactly when no session is open or
`now - session_start` exceeds `scroll_session_timeout`. -/
theorem scroll_new_session_iff_start_gap (cfg : ScrollConfig) (st : ScrollState)
    (x y dx dy now : ℚ) :
    (let r := should_log_scroll cfg st x y dx dy now
     r.1 = true ∧ r.2.event_count = 0 ∧ r.2.session_start = some now ∧
       r.2.last_position = some (x, y) ∧ r.2.last_time = some now)
    ↔ (st.session_start = none ∨
       ∃ s0, st.session_start = some s0 ∧
         now - s0 > cfg.scroll_session_timeout) := by
  cases hs : st.session_start with
  | none => simp [should_log_scroll, hs]
  | some s0 =>
    simp only [should_log_scroll, hs]
    by_cases h1 : now - s0 > cfg.scroll_session_timeout
    · simp only [if_pos h1]
      simp only [true_and, and_true, eq_self_iff_true]
      constructor
      · intro _; exact Or.inr ⟨s0, rfl, h1⟩
      · intro _; simp
    · rw [if_neg h1]
      constructor
      · intro hL
        exfalso
        by_cases h2 : debounce_reject cfg st now = true
        · rw [if_pos h2] at hL; simp at hL
        · rw [if_neg h2] at hL
          by_cases h3 : distance_reject cfg st x y dx dy = true
          · rw [if_pos h3] at hL; simp at hL
          · rw [if_neg h3] at hL
            by_cases h4 : frequency_reject cfg (st.event_count + 1) (now - s0) = true
            · simp only [if_pos h4] at hL; simp at hL
            · simp only [if_neg h4] at hL
              exact Nat.succ_ne_zero st.event_count hL.2.1
      · rintro (h | ⟨s0', heq, hgt⟩)
        · exact absurd h (by simp)
        · cases heq; exact absurd hgt h1

/-- C3, counterexample to the general rate-limiting property: with the class
constants (debounce 0.8 s, min distance 8, max frequency 8, session timeout
3 s), scroll events at `(50, 50)` with `dy = 10` and a fixed gap of
0.62 s < 0.8 s (times `0.62 k`, `k = 0..5`) get four events accepted, and the
last two accepted events (at 2.48 s and 3.1 s) are only 0.62 s < 0.8 s apart —
two acceptances inside one debounce-interval window, because the event at
3.1 s opens a fresh session (3.1 > session timeout 3) and is accepted without
any debounce check. -/
theorem scroll_debounce_window_cex :
    (scroll_run ⟨4/5, 8, 8, 3⟩ initScroll
      [(50, 50, 0, 10, 0), (50, 50, 0, 10, 31/50), (50, 50, 0, 10, 31/25),
       (50, 50, 0, 10, 93/50), (50, 50, 0, 10, 62/25), (50, 50, 0, 10, 31/10)]).2
      = [0, 31/25, 62/25, 31/10] ∧
    (31:ℚ)/50 < 4/5 ∧ (31:ℚ)/10 - 62/25 < 4/5 := by
  refine ⟨?_, by norm_num, by norm_num⟩
  norm_num [scroll_run, should_log_scroll, debounce_reject, distance_reject,
    frequency_reject, initScroll]

/-- C3 (amended: the rate-limiting property holds within a session — an
accepted event that does not open a new session lies at least
`scroll_debounce_sec` after the previous accepted event of the session — and the
concrete scenario holds exactly as stated): 20 scroll events at `(50, 50)`
with `dx = 0, dy = 1` fired every 10 ms under a 0.8 s debounce interval yield
exactly 1 accepted event. -/
theorem scroll_debounce_rate_limit (cfg : ScrollConfig) (st : ScrollState)
    (x y dx dy now s0 lt : ℚ) (hs : st.session_start = some s0)
    (hin : ¬ now - s0 > cfg.scroll_session_timeout)
    (hlt : st.last_time = some lt)
    (hacc : (should_log_scroll cfg st x y dx dy now).1 = true) :
    now - lt ≥ cfg.scroll_debounce_sec ∧
    (scroll_run ⟨4/5, 8, 8, 3⟩ initScroll
      [(50, 50, 0, 1, 0), (50, 50, 0, 1, 1/100), (50, 50, 0, 1, 2/100),
       (50, 50, 0, 1, 3/100), (50, 50, 0, 1, 4/100), (50, 50, 0, 1, 5/100),
       (50, 50, 0, 1, 6/100), (50, 50, 0, 1, 7/100), (50, 50, 0, 1, 8/100),
       (50, 50, 0, 1, 9/100), (50, 50, 0, 1, 10/100), (50, 50, 0, 1, 11/100),
       (50, 50, 0, 1, 12/100), (50, 50, 0, 1, 13/100), (50, 50, 0, 1, 14/100),
       (50, 50, 0, 1, 15/100), (50, 50, 0, 1, 16/100), (50, 50, 0, 1, 17/100),
       (50, 50, 0, 1, 18/100), (50, 50, 0, 1, 19/100)]).2.length = 1 := by
  constructor
  · by_contra hcon
    push_neg at hcon
    have hd : debounce_reject cfg st now = true := by
      simp only [debounce_reject, hlt, decide_eq_true_eq]
      exact hcon
    simp [should_log_scroll, hs, if_neg hin, hd] at hacc
  · norm_num [scroll_run, should_log_scroll, debounce_reject, distance_reject,
      frequency_reject, initScroll]

/-- Witness for `scroll_debounce_rate_limit` at a concrete accepted in-session
event: session started at 0, previous accepted event at 1, current event
accepted at 2 with debounce 0.5. -/
theorem scroll_debounce_rate_limit_witness :
    (2:ℚ) - 1 ≥ (1/2 : ℚ) ∧
    (scroll_run ⟨4/5, 8, 8, 3⟩ initScroll
      [(50, 50, 0, 1, 0), (50, 50, 0, 1, 1/100), (50, 50, 0, 1, 2/100),
       (50, 50, 0, 1, 3/100), (50, 50, 0, 1, 4/100), (50, 50, 0, 1, 5/100),
       (50, 50, 0, 1, 6/100), (50, 50, 0, 1, 7/100), (50, 50, 0, 1, 8/100),
       (50, 50, 0, 1, 9/100), (50, 50, 0, 1, 10/100), (50, 50, 0, 1, 11/100),
       (50, 50, 0, 1, 12/100), (50, 50, 0, 1, 13/100), (50, 50, 0, 1, 14/100),
       (50, 50, 0, 1, 15/100), (50, 50, 0, 1, 16/100), (50, 50, 0, 1, 17/100),
       (50, 50, 0, 1, 18/100), (50, 50, 0, 1, 19/100)]).2.length = 1 :=
  scroll_debounce_rate_limit ⟨1/2, 5, 10, 2⟩ ⟨some 0, 1, some (50, 50), some 1⟩
    50 50 0 10 2 0 1 rfl (by norm_num) rfl
    (by norm_num [should_log_scroll, debounce_reject, distance_reject,
      frequency_reject])

/-- Helper: as long as every key event of a run lies within
`_key_activity_timeout` of the session start `s0`, no step of `key_sim`
starts a new session, and the session-start attribute is preserved. -/
theorem key_sim_in_session (timeout s0 : ℚ) (ts : List ℚ) :
    ∀ (st : KeySess) (i : Nat),
      st.key_activity_start = some s0 → (∀ t ∈ ts, t - s0 ≤ timeout) →
      (key_sim timeout st i ts).2 = 0 ∧
      (key_sim timeout st i ts).1.key_activity_start = some s0 := by
  induction ts with
  | nil => intro st i hst _; simp [key_sim, hst]
  | cons t rest ih =>
    intro st i hst h
    have hnot : ¬ t - s0 > timeout := not_lt.mpr (h t (List.mem_cons_self t rest))
    have hstep : (key_event_session timeout st t i).2 = false ∧
        (key_event_session timeout st t i).1.key_activity_start = some s0 := by
      simp only [key_event_session, hst, if_neg hnot]
      split <;> simp
    have hrest := ih (key_event_session timeout st t i).1 (i + 1) hstep.2
      (fun u hu => h u (List.mem_cons_of_mem t hu))
    refine ⟨?_, ?_⟩
    · simp only [key_sim]
      simp [hstep.1, hrest.1]
    · simp only [key_sim]
      exact hrest.2

/-- C1, counterexample: the keyboard-session check compares against the
*session start*, not the last key event.  With `keyboard_timeout = 2`, key
events at times 0, 1, 2, 3 have every gap equal to 1 < 2, yet the run starts
2 sessions (the event at time 3 has `3 - 0 > 2` and opens a new session), and
after the events 0, 1, 2 the periodic check at time 5/2 — only 1/2 after the
last key event — closes the session. -/
theorem keyboard_session_gap_cex :
    ((1:ℚ) - 0 ≤ 2 ∧ (2:ℚ) - 1 ≤ 2 ∧ (3:ℚ) - 2 ≤ 2 ∧ (5/2:ℚ) - 2 ≤ 2) ∧
    (key_sim 2 ⟨none, [], []⟩ 0 [0, 1, 2, 3]).2 = 2 ∧
    key_periodic_closes 2 (key_sim 2 ⟨none, [], []⟩ 0 [0, 1, 2]).1 (5/2)
      = true := by
  refine ⟨by norm_num, ?_, ?_⟩ <;>
    norm_num [key_sim, key_event_session, cleanup_key_screenshots,
      key_periodic_closes]

/-- C1 (amended: a keyboard session ends only when the time since the
*session start* exceeds `keyboard_timeout`): for every sequence of key events
whose times all lie within `keyboard_timeout` of the first event, the session
stays active — exactly one session is started, its start stays at the first
time of the first event, and the periodic check does not close it at any time within
`keyboard_timeout` of the session start. -/
theorem keyboard_session_total_duration (timeout t1 now : ℚ) (ts : List ℚ)
    (h : ∀ t ∈ ts, t - t1 ≤ timeout) (hnow : now - t1 ≤ timeout) :
    (key_sim timeout ⟨none, [], []⟩ 0 (t1 :: ts)).2 = 1 ∧
    (key_sim timeout ⟨none, [], []⟩ 0 (t1 :: ts)).1.key_activity_start
      = some t1 ∧
    key_periodic_closes timeout
      (key_sim timeout ⟨none, [], []⟩ 0 (t1 :: ts)).1 now = false := by
  have hfirst : key_event_session timeout ⟨none, [], []⟩ t1 0
      = (⟨some t1, [0], [0]⟩, true) := by
    simp [key_event_session]
  have hrest := key_sim_in_session timeout t1 ts ⟨some t1, [0], [0]⟩ 1 rfl h
  have hcount : (key_sim timeout ⟨none, [], []⟩ 0 (t1 :: ts)).2 = 1 := by
    simp only [key_sim, hfirst]
    simp [hrest.1]
  have hstart : (key_sim timeout ⟨none, [], []⟩ 0 (t1 :: ts)).1.key_activity_start
      = some t1 := by
    simp only [key_sim, hfirst]
    exact hrest.2
  refine ⟨hcount, hstart, ?_⟩
  simp only [key_periodic_closes, hstart]
  simp [not_lt.mpr hnow]

/-- Witness for `keyboard_session_total_duration`: timeout 2, key events at
0, 1, 2 and a periodic check at time 1. -/
theorem keyboard_session_total_duration_witness :
    ((∀ t ∈ [(1:ℚ), 2], t - 0 ≤ 2) ∧ (1:ℚ) - 0 ≤ 2) ∧
    ((key_sim 2 ⟨none, [], []⟩ 0 [0, 1, 2]).2 = 1 ∧
     (key_sim 2 ⟨none, [], []⟩ 0 [0, 1, 2]).1.key_activity_start = some 0 ∧
     key_periodic_closes 2 (key_sim 2 ⟨none, [], []⟩ 0 [0, 1, 2]).1 1
       = false) :=
  ⟨⟨by intro t ht; fin_cases ht <;> norm_num, by norm_num⟩,
   keyboard_session_total_duration 2 0 1 [1, 2]
     (by intro t ht; fin_cases ht <;> norm_num) (by norm_num)⟩

/-- Helper: an in-session key event on a state holding screenshots `[a, b]`
appends the fresh path `i` and immediately cleans up: the middle screenshot
`b` is deleted from disk and the list is trimmed to `[a, i]`. -/
theorem key_event_session_third (timeout s0 t : ℚ) (a b i : Nat)
    (hab : a ≠ b) (hib : i ≠ b) (ht : ¬ t - s0 > timeout) :
    key_event_session timeout ⟨some s0, [a, b], [a, b]⟩ t i
      = (⟨some s0, [a, i], [a, i]⟩, false) := by
  simp only [key_event_session, if_neg ht]
  simp [cleanup_key_screenshots, List.filter, hab, hib]

/-- Helper: starting from an in-session state whose screenshot list and disk
both hold exactly the first and the newest path `[a, b]`, any further run of
in-session key events with fresh increasing paths preserves that invariant,
ending with the first path and the path of the last event. -/
theorem key_sim_two_shots (timeout s0 : ℚ) (rest : List ℚ) :
    ∀ (t : ℚ) (a b i : Nat), a < b → b < i →
      t - s0 ≤ timeout → (∀ u ∈ rest, u - s0 ≤ timeout) →
      (key_sim timeout ⟨some s0, [a, b], [a, b]⟩ i (t :: rest)).1
        = ⟨some s0, [a, i + rest.length], [a, i + rest.length]⟩ := by
  induction rest with
  | nil =>
    intro t a b i hab hbi ht _
    have hstep := key_event_session_third timeout s0 t a b i (Nat.ne_of_lt hab)
      (Ne.symm (Nat.ne_of_lt hbi)) (not_lt.mpr ht)
    simp [key_sim, hstep]
  | cons u us ih =>
    intro t a b i hab hbi ht h
    have hstep := key_event_session_third timeout s0 t a b i (Nat.ne_of_lt hab)
      (Ne.symm (Nat.ne_of_lt hbi)) (not_lt.mpr ht)
    have hmain := ih u a i (i + 1) (Nat.lt_trans hab hbi) (Nat.lt_succ_self i)
      (h u (List.mem_cons_self u us))
      (fun v hv => h v (List.mem_cons_of_mem u hv))
    have hunf : (key_sim timeout ⟨some s0, [a, b], [a, b]⟩ i (t :: u :: us)).1
        = (key_sim timeout
            (key_event_session timeout ⟨some s0, [a, b], [a, b]⟩ t i).1
            (i + 1) (u :: us)).1 := rfl
    rw [hunf]
    simp only [hstep]
    rw [hmain]
    have hlen : i + 1 + us.length = i + (u :: us).length := by
      simp only [List.length_cons]; omega
    rw [hlen]

/-- C4: while a keyboard session is active (all key-event times within
`keyboard_timeout` of the first), from the third key event on, the
screenshot list is trimmed to exactly the first and the newest path and every
other screenshot of the session is deleted from disk — the invariant is
restored after every key event beyond the second (the suffix `us` is
arbitrary, so this covers the state after each such event).  Paths are handed
out in increasing order `0, 1, 2, …`, matching the strictly increasing
timestamped filenames. -/
theorem key_screenshots_first_and_newest (timeout t1 t2 u : ℚ) (us : List ℚ)
    (h2 : t2 - t1 ≤ timeout) (hu : u - t1 ≤ timeout)
    (hus : ∀ t ∈ us, t - t1 ≤ timeout) :
    (key_sim timeout ⟨none, [], []⟩ 0 (t1 :: t2 :: u :: us)).1
      = ⟨some t1, [0, us.length + 2], [0, us.length + 2]⟩ := by
  have h1 : key_event_session timeout ⟨none, [], []⟩ t1 0
      = (⟨some t1, [0], [0]⟩, true) := by simp [key_event_session]
  have hstep2 : key_event_session timeout ⟨some t1, [0], [0]⟩ t2 1
      = (⟨some t1, [0, 1], [0, 1]⟩, false) := by
    simp [key_event_session, not_lt.mpr h2]
  have hmain := key_sim_two_shots timeout t1 us u 0 1 2 Nat.zero_lt_one
    Nat.one_lt_two hu hus
  have hunf : (key_sim timeout ⟨none, [], []⟩ 0 (t1 :: t2 :: u :: us)).1
      = (key_sim timeout
          (key_event_session timeout
            (key_event_session timeout ⟨none, [], []⟩ t1 0).1 t2 1).1
          2 (u :: us)).1 := rfl
  rw [hunf]
  simp only [h1, hstep2]
  rw [hmain]
  have : 2 + us.length = us.length + 2 := Nat.add_comm 2 us.length
  rw [this]

/-- Witness for `key_screenshots_first_and_newest`: timeout 2, key events at
times 0, 1, 2 — afterwards only the first screenshot (path 0) and the newest
(path 2) remain tracked and on disk. -/
theorem key_screenshots_first_and_newest_witness :
    ((1:ℚ) - 0 ≤ 2 ∧ (2:ℚ) - 0 ≤ 2) ∧
    (key_sim 2 ⟨none, [], []⟩ 0 [0, 1, 2]).1 = ⟨some 0, [0, 2], [0, 2]⟩ :=
  ⟨⟨by norm_num, by norm_num⟩,
   key_screenshots_first_and_newest 2 0 1 2 [] (by norm_num) (by norm_num)
     (by simp)⟩

/-- Helper: the `continue`-based loop of `_find_region_for_point` returns the
first tracked entry satisfying `region_passes` (containment plus, when
applicable, topmost-window verification). -/
theorem find_region_eq_find (wap : Option Nat) (verify_window : Bool) (x y : ℚ)
    (tw : List Tracked) :
    find_region_for_point wap verify_window x y tw
      = tw.find? (region_passes wap verify_window x y) := by
  induction tw with
  | nil => rfl
  | cons t rest ih =>
    by_cases hc : is_point_in_region x y t.region = true
    · by_cases hv : (verify_window && t.id.isSome) = true
      · obtain ⟨hvw, hsome⟩ : verify_window = true ∧ t.id.isSome = true := by
          simpa using hv
        subst hvw
        rcases hi : t.id with _ | i
        · rw [hi] at hsome; simp at hsome
        · rcases wap with _ | w
          · have hp : region_passes none true x y t = true := by
              simp [region_passes, hc, hi]
            rw [List.find?_cons_of_pos _ hp]
            simp [find_region_for_point, hc, hv, hi]
          · by_cases hwi : w = i
            · have hp : region_passes (some w) true x y t = true := by
                simp [region_passes, hc, hi, hwi]
              rw [List.find?_cons_of_pos _ hp]
              simp [find_region_for_point, hc, hv, hi, hwi]
            · have hp : region_passes (some w) true x y t = false := by
                simp [region_passes, hc, hi, hwi]
              rw [List.find?_cons_of_neg _ (by simp [hp])]
              simp [find_region_for_point, hc, hi, hwi, ih]
      · have hp : region_passes wap verify_window x y t = true := by
          simp [region_passes, hc, hv]
        rw [List.find?_cons_of_pos _ hp]
        simp [find_region_for_point, hc, hv]
    · have hcf : is_point_in_region x y t.region = false := by
        simpa using hc
      have hp : region_passes wap verify_window x y t = false := by
        simp [region_passes, hcf]
      rw [List.find?_cons_of_neg _ (by simp [hp])]
      simp [find_region_for_point, hcf, ih]

/-- C5, counterexample: when the first containing region fails topmost-window
verification the resolver does not fail — it `continue`s and can return a
*later* tracked region.  Two overlapping tracked regions with handles 10 and
20, point `(50, 50)` inside both, topmost window 20: the first containing
region is the one with handle 10, yet resolution neither returns it nor
fails; it returns the second region (handle 20). -/
theorem region_resolver_occlusion_cex :
    is_point_in_region 50 50
      (⟨some 10, ⟨0, 0, 100, 100⟩⟩ : Tracked).region = true ∧
    find_region_for_point (some 20) true 50 50
      [⟨some 10, ⟨0, 0, 100, 100⟩⟩, ⟨some 20, ⟨0, 0, 100, 100⟩⟩]
      = some ⟨some 20, ⟨0, 0, 100, 100⟩⟩ ∧
    (⟨some 20, ⟨0, 0, 100, 100⟩⟩ : Tracked).id
      ≠ (⟨some 10, ⟨0, 0, 100, 100⟩⟩ : Tracked).id := by
  refine ⟨?_, ?_, by simp⟩ <;>
    norm_num [is_point_in_region, find_region_for_point]

/-- C5 (amended: `resolve(x, y)` returns the first tracked region that
contains the point *and* passes window verification — a containing region
whose topmost window differs is skipped and later regions are still tried;
and when no tracked rectangle contains the point it returns none and the
mouse handler drops the event before any capture). -/
theorem region_resolver_first_passing (wap : Option Nat) (verify_window : Bool)
    (x y : ℚ) (tw : List Tracked) (grab : Except Unit (Option Frame))
    (skip : Bool) (typ : String) :
    find_region_for_point wap verify_window x y tw
      = tw.find? (region_passes wap verify_window x y) ∧
    ((∀ t ∈ tw, is_point_in_region x y t.region = false) →
      find_region_for_point wap verify_window x y tw = none ∧
      mouse_event wap tw grab skip x y typ = MouseRes.skippedOutside) := by
  have hn : (∀ t ∈ tw, is_point_in_region x y t.region = false) →
      ∀ v : Bool, find_region_for_point wap v x y tw = none := by
    intro hout v
    rw [find_region_eq_find, List.find?_eq_none]
    intro a ha
    simp [region_passes, hout a ha]
  refine ⟨find_region_eq_find wap verify_window x y tw, fun hout => ⟨hn hout _, ?_⟩⟩
  simp [mouse_event, hn hout true]

/-- Witness for `region_resolver_first_passing`: one tracked region
`[0,10)×[0,10)` and the outside point `(50, 50)`. -/
theorem region_resolver_first_passing_witness :
    (∀ t ∈ [(⟨some 3, ⟨0, 0, 10, 10⟩⟩ : Tracked)],
      is_point_in_region 50 50 t.region = false) ∧
    (find_region_for_point none true 50 50 [⟨some 3, ⟨0, 0, 10, 10⟩⟩]
      = List.find? (region_passes none true 50 50) [⟨some 3, ⟨0, 0, 10, 10⟩⟩] ∧
     (find_region_for_point none true 50 50 [⟨some 3, ⟨0, 0, 10, 10⟩⟩] = none ∧
      mouse_event none [⟨some 3, ⟨0, 0, 10, 10⟩⟩] (Except.ok (some ⟨()⟩)) false
        50 50 "click_left" = MouseRes.skippedOutside)) :=
  have hout : ∀ t ∈ [(⟨some 3, ⟨0, 0, 10, 10⟩⟩ : Tracked)],
      is_point_in_region 50 50 t.region = false := by
    intro t ht
    fin_cases ht
    norm_num [is_point_in_region]
  have h := region_resolver_first_passing none true 50 50
    [⟨some 3, ⟨0, 0, 10, 10⟩⟩] (Except.ok (some ⟨()⟩)) false "click_left"
  ⟨hout, h.1, h.2 hout⟩

/-- C6: when `flush` processes a pending pointer/scroll action, a failed
"after" capture (exception or no frame) abandons the action — nothing is
saved and no ActivityRecord is emitted — while a successful capture persists
both annotated frames (tagged `step_before`, `step_after`) and emits exactly
one ActivityRecord whose content describes the action type and coordinates
(and, for scroll, the delta vector) via `process_and_emit_content`. -/
theorem flush_after_capture (ev : PendingEvent) (mon : Region)
    (aft : Except Unit (Option Frame)) (hmon : ev.monitor_rect = some mon) :
    ((aft = Except.error () ∨ aft = Except.ok none) →
      flush (some ev) false aft = ([], [])) ∧
    (∀ f : Frame, aft = Except.ok (some f) →
      flush (some ev) false aft =
        ([event_step_string ev ++ "_before", event_step_string ev ++ "_after"],
         [process_and_emit_content ev])) := by
  constructor
  · rintro (rfl | rfl) <;> simp [flush, hmon]
  · rintro f rfl
    simp [flush, hmon]

/-- Witness for `flush_after_capture`: a concrete click pending event; the
failed capture saves and emits nothing, the successful one saves two frames
and emits one record. -/
theorem flush_after_capture_witness :
    (flush (some ⟨"click_left", (120, 80), none, none, some ⟨0, 0, 800, 600⟩,
        none⟩) false (Except.error ()) = ([], [])) ∧
    (flush (some ⟨"click_left", (120, 80), none, none, some ⟨0, 0, 800, 600⟩,
        none⟩) false (Except.ok (some ⟨()⟩)) =
      ([event_step_string ⟨"click_left", (120, 80), none, none,
          some ⟨0, 0, 800, 600⟩, none⟩ ++ "_before",
        event_step_string ⟨"click_left", (120, 80), none, none,
          some ⟨0, 0, 800, 600⟩, none⟩ ++ "_after"],
       [process_and_emit_content ⟨"click_left", (120, 80), none, none,
          some ⟨0, 0, 800, 600⟩, none⟩])) :=
  ⟨(flush_after_capture _ ⟨0, 0, 800, 600⟩ (Except.error ()) rfl).1 (Or.inl rfl),
   (flush_after_capture _ ⟨0, 0, 800, 600⟩ (Except.ok (some ⟨()⟩)) rfl).2
     ⟨()⟩ rfl⟩

/-- C7: a left-button click at screen point `(120, 80)` inside a tracked
region with bounds `{left: 0, top: 0, width: 800, height: 600}`, with both the
before and after grabs succeeding, produces exactly one ActivityRecord whose
content is `click_left(120.0, 80.0)` (frames are tagged with the same step
string). -/
theorem click_scenario_record :
    (match mouse_event none [⟨none, ⟨0, 0, 800, 600⟩⟩] (Except.ok (some ⟨()⟩))
        false 120 80 "click_left" with
     | MouseRes.pending ev => flush (some ev) false (Except.ok (some ⟨()⟩))
     | _ => ([], []))
    = (["click_left(120.0, 80.0)_before", "click_left(120.0, 80.0)_after"],
       ["click_left(120.0, 80.0)"]) := by
  have hfind : find_region_for_point none true 120 80
      [(⟨none, ⟨0, 0, 800, 600⟩⟩ : Tracked)] = some ⟨none, ⟨0, 0, 800, 600⟩⟩ := by
    norm_num [find_region_for_point, is_point_in_region]
  have hfmt1 : format_1f (120:ℚ) = "120.0" := by
    norm_num [format_1f]
    rfl
  have hfmt2 : format_1f (80:ℚ) = "80.0" := by
    norm_num [format_1f]
    rfl
  have hc1 : str_contains "click_left" "scroll" = false := by rfl
  have hc2 : str_contains "click_left" "click" = true := by rfl
  simp [mouse_event, hfind, flush, event_step_string, process_and_emit_content,
    hc1, hc2, hfmt1, hfmt2]

/-- Helper: once the stored baseline equals the (non-empty) current title,
further refreshes returning that same title detect nothing and keep the
baseline. -/
theorem title_refresh_run_same (r : Region) (t : String) (ht : t ≠ "") :
    ∀ n : Nat, title_refresh_run t (List.replicate n (some r, some t)) = (0, t) := by
  intro n
  induction n with
  | zero => rfl
  | succ n ih =>
    have hstep : title_refresh_step (some r) (some t) t = (false, t) := by
      simp [title_refresh_step, ht]
    simp only [List.replicate, title_refresh_run, hstep]
    simp [ih]

/-- C8: during window-tracker refresh a tab switch is detected exactly when
the current non-empty title differs from a non-empty last-seen title; on
detection the new title immediately becomes the baseline; and `n + 1`
consecutive refreshes all returning the same non-empty title produce exactly
one detection when the stored baseline is non-empty and different, and none
otherwise (each detection triggers exactly one capture and ActivityRecord in
`Screen._worker`). -/
theorem title_change_detection (r : Region) (t last : String) (n : Nat)
    (ht : t ≠ "") :
    ((title_refresh_step (some r) (some t) last).1 = true
      ↔ (last ≠ "" ∧ t ≠ last)) ∧
    ((title_refresh_step (some r) (some t) last).1 = true →
      (title_refresh_step (some r) (some t) last).2 = t) ∧
    (title_refresh_run last (List.replicate (n + 1) (some r, some t))).1
      = (if last ≠ "" ∧ t ≠ last then 1 else 0) := by
  refine ⟨?_, ?_, ?_⟩
  · by_cases h1 : last = ""
    · subst h1; simp [title_refresh_step, ht]
    · by_cases h2 : t = last
      · subst h2; simp [title_refresh_step, ht, h1]
      · simp [title_refresh_step, ht, h1, h2]
  · by_cases h1 : last = ""
    · subst h1; simp [title_refresh_step, ht]
    · by_cases h2 : t = last
      · subst h2; simp [title_refresh_step, ht, h1]
      · simp [title_refresh_step, ht, h1, h2]
  · have hrep : List.replicate (n + 1) ((some r : Option Region), some t)
        = (some r, some t) :: List.replicate n (some r, some t) := rfl
    rw [hrep]
    by_cases h1 : last = ""
    · subst h1
      have hstep : title_refresh_step (some r) (some t) "" = (false, t) := by
        simp [title_refresh_step, ht]
      simp only [title_refresh_run, hstep]
      simp [title_refresh_run_same r t ht n]
    · by_cases h2 : t = last
      · subst h2
        have hstep : title_refresh_step (some r) (some t) t = (false, t) := by
          simp [title_refresh_step, ht]
        simp only [title_refresh_run, hstep]
        simp [title_refresh_run_same r t ht n]
      · have hstep : title_refresh_step (some r) (some t) last = (true, t) := by
          simp [title_refresh_step, ht, h1, h2]
        simp only [title_refresh_run, hstep]
        simp [title_refresh_run_same r t ht n, h1, h2]

/-- Witness for `title_change_detection`: baseline "Tab1", three refreshes
all returning "Tab2" — one detection. -/
theorem title_change_detection_witness :
    ("Tab2" ≠ "") ∧
    (((title_refresh_step (some ⟨0, 0, 1, 1⟩) (some "Tab2") "Tab1").1 = true
       ↔ ("Tab1" ≠ "" ∧ "Tab2" ≠ "Tab1")) ∧
     ((title_refresh_step (some ⟨0, 0, 1, 1⟩) (some "Tab2") "Tab1").1 = true →
       (title_refresh_step (some ⟨0, 0, 1, 1⟩) (some "Tab2") "Tab1").2
         = "Tab2") ∧
     (title_refresh_run "Tab1"
        (List.replicate 3 (some ⟨0, 0, 1, 1⟩, some "Tab2"))).1
       = (if "Tab1" ≠ "" ∧ "Tab2" ≠ "Tab1" then 1 else 0)) :=
  ⟨by decide, title_change_detection ⟨0, 0, 1, 1⟩ "Tab2" "Tab1" 2 (by decide)⟩

/-- C9: given `lastActivity = t0` and no further events, the idle check of the
worker tick at any time `t` with `t - t0` above the configured inactivity
timeout stops the engine (`_running := False`, terminal — the loop breaks and
no further events are accepted), while at any `t` with `t - t0` below the
timeout the engine keeps running; the default timeout is `45 * 60 = 2700`
seconds (45 minutes). -/
theorem inactivity_idle_check (timeout t0 t : ℚ) :
    (t - t0 > timeout → inactivity_check timeout (some t0) true t = false) ∧
    (t - t0 < timeout → inactivity_check timeout (some t0) true t = true) ∧
    inactivity_timeout_default = 2700 := by
  refine ⟨?_, ?_, by norm_num [inactivity_timeout_default]⟩
  · intro h
    simp [inactivity_check, le_of_lt h]
  · intro h
    simp [inactivity_check, not_le.mpr h]

/-- Witness for `inactivity_idle_check` at the default timeout: idle at
`t0 + 2701`, not idle at `t0 + 2699`. -/
theorem inactivity_idle_check_witness :
    ((2701:ℚ) - 0 > 2700 ∧ inactivity_check 2700 (some 0) true 2701 = false) ∧
    ((2699:ℚ) - 0 < 2700 ∧ inactivity_check 2700 (some 0) true 2699 = true) :=
  ⟨⟨by norm_num, (inactivity_idle_check 2700 0 2701).1 (by norm_num)⟩,
   ⟨by norm_num, (inactivity_idle_check 2700 0 2699).2.1 (by norm_num)⟩⟩

/-- C10: a scroll event that passes the scroll filter and resolves to a
tracked region, whose "before" grab does not raise, is nevertheless dropped
when its scroll magnitude is below 1.0 (`dx² + dy² < 1`): the handler returns
`tooSmall` — no pending action is created, no screenshot is saved, and no
ActivityRecord is emitted. -/
theorem scroll_small_magnitude_dropped (cfg : ScrollConfig) (st : ScrollState)
    (wap : Option Nat) (tw : List Tracked) (bf : Option Frame) (skip : Bool)
    (x y dx dy now : ℚ) (tr : Tracked)
    (hfilter : (should_log_scroll cfg st x y dx dy now).1 = true)
    (hfind : find_region_for_point wap true x y tw = some tr)
    (hmag : dx * dx + dy * dy < 1) :
    (scroll_event_handler cfg st wap tw (Except.ok bf) skip x y dx dy now).2
      = ScrollRes.tooSmall := by
  simp [scroll_event_handler, hfilter, hfind, hmag]

/-- Witness for `scroll_small_magnitude_dropped`: first scroll of a session
(always accepted by the filter) at `(50, 50)` with `dy = 1/2` inside a fixed
tracked region. -/
theorem scroll_small_magnitude_dropped_witness :
    ((should_log_scroll ⟨1/2, 5, 10, 2⟩ initScroll 50 50 0 (1/2) 0).1 = true ∧
     find_region_for_point none true 50 50 [⟨none, ⟨0, 0, 100, 100⟩⟩]
       = some ⟨none, ⟨0, 0, 100, 100⟩⟩ ∧
     (0:ℚ) * 0 + (1/2) * (1/2) < 1) ∧
    (scroll_event_handler ⟨1/2, 5, 10, 2⟩ initScroll none
      [⟨none, ⟨0, 0, 100, 100⟩⟩] (Except.ok (some ⟨()⟩)) false
      50 50 0 (1/2) 0).2 = ScrollRes.tooSmall :=
  ⟨⟨by norm_num [should_log_scroll, initScroll],
    by norm_num [find_region_for_point, is_point_in_region], by norm_num⟩,
   scroll_small_magnitude_dropped ⟨1/2, 5, 10, 2⟩ initScroll none
     [⟨none, ⟨0, 0, 100, 100⟩⟩] (some ⟨()⟩) false 50 50 0 (1/2) 0
     ⟨none, ⟨0, 0, 100, 100⟩⟩
     (by norm_num [should_log_scroll, initScroll])
     (by norm_num [find_region_for_point, is_point_in_region]) (by norm_num)⟩

end Screen
